import Mathlib

/-!
HyperSDK wrapper interface (`hyper/wrapper.h`).

The repository's C source is one header of five function prototypes.  The first
part of this development embeds that header as data (types, parameters,
prototypes, top-level items) together with the reading of a parameter list as
logical inputs and outputs.  The bodies of the five functions live in a Go
runtime that is not among the C sources; the second part models that runtime
from the specification's description of it (sections 3 to 7), and every
definition of that part says so.
-/

namespace HyperSDK

/-! ## Part 1: the declarations of `wrapper.h` -/

/-- The C types that occur in `wrapper.h`. `const t` is the qualified type, so
`const char*` is `ptr (const char)` and `const uint8_t id[32]` is
`array (const uint8) 32`. -/
inductive CType where
  | void
  | int
  | char
  | uint8
  | size
  | const (t : CType)
  | ptr (pointee : CType)
  | array (elem : CType) (len : Nat)
  deriving DecidableEq, Repr

/-- A declared parameter: its type and its name. -/
structure Param where
  type : CType
  name : String
  deriving DecidableEq, Repr

/-- A function prototype: the comment above it, return type, name, parameters. -/
structure Prototype where
  doc : String
  ret : CType
  name : String
  params : List Param
  deriving DecidableEq, Repr

/-- The kinds of top-level item a C header can hold. `wrapper.h` uses only the
first two. -/
inductive Item where
  | includeDirective (header : String)
  | prototype (p : Prototype)
  | functionBody (p : Prototype) (statements : List String)
  | structDef (name : String) (fields : List Param)
  | typeAlias (name : String) (t : CType)
  | globalVar (v : Param)
  deriving DecidableEq, Repr

/-- Line 5: `int hypersdk_init_runtime(const char* config);` -/
def hypersdk_init_runtime : Prototype :=
  { doc := "Initialize the HyperSDK runtime with the given configuration"
    ret := .int
    name := "hypersdk_init_runtime"
    params := [⟨.ptr (.const .char), "config"⟩] }

/-- Line 8: `int hypersdk_deploy_contract(const uint8_t* wasm_bytes, size_t wasm_len,
uint8_t contract_id[32]);` -/
def hypersdk_deploy_contract : Prototype :=
  { doc := "Deploy a new contract and return its ID"
    ret := .int
    name := "hypersdk_deploy_contract"
    params := [⟨.ptr (.const .uint8), "wasm_bytes"⟩, ⟨.size, "wasm_len"⟩,
               ⟨.array .uint8 32, "contract_id"⟩] }

/-- Lines 11-18: `int hypersdk_call_contract(const uint8_t contract_id[32],
const char* function, const uint8_t* args, size_t args_len, uint8_t** result,
size_t* result_len);` -/
def hypersdk_call_contract : Prototype :=
  { doc := "Call a contract function"
    ret := .int
    name := "hypersdk_call_contract"
    params := [⟨.array (.const .uint8) 32, "contract_id"⟩,
               ⟨.ptr (.const .char), "function"⟩,
               ⟨.ptr (.const .uint8), "args"⟩, ⟨.size, "args_len"⟩,
               ⟨.ptr (.ptr .uint8), "result"⟩, ⟨.ptr .size, "result_len"⟩] }

/-- Lines 21-25: `int hypersdk_get_state(const uint8_t contract_id[32],
uint8_t** state, size_t* state_len);` -/
def hypersdk_get_state : Prototype :=
  { doc := "Get contract state"
    ret := .int
    name := "hypersdk_get_state"
    params := [⟨.array (.const .uint8) 32, "contract_id"⟩,
               ⟨.ptr (.ptr .uint8), "state"⟩, ⟨.ptr .size, "state_len"⟩] }

/-- Line 28: `void hypersdk_free_buffer(void* ptr);` -/
def hypersdk_free_buffer : Prototype :=
  { doc := "Free a buffer allocated by the Go runtime"
    ret := .void
    name := "hypersdk_free_buffer"
    params := [⟨.ptr .void, "ptr"⟩] }

/-- The whole of `wrapper.h`, top to bottom (comments are carried by the
prototype they precede). -/
def wrapper_h : List Item :=
  [ .includeDirective "stdint.h",
    .includeDirective "stdlib.h",
    .prototype hypersdk_init_runtime,
    .prototype hypersdk_deploy_contract,
    .prototype hypersdk_call_contract,
    .prototype hypersdk_get_state,
    .prototype hypersdk_free_buffer ]

/-- The prototypes among a header's items, in order. -/
def prototypes : List Item → List Prototype
  | [] => []
  | .prototype p :: is => p :: prototypes is
  | _ :: is => prototypes is

/-- An item that only declares: an include line or a prototype. -/
def Item.isDeclaration : Item → Bool
  | .includeDirective _ => true
  | .prototype _ => true
  | _ => false

/-- An item that carries a function body. -/
def Item.hasBody : Item → Bool
  | .functionBody _ _ => true
  | _ => false

/-- An item that defines a data structure (a struct, a type alias or a global). -/
def Item.definesData : Item → Bool
  | .structDef _ _ => true
  | .typeAlias _ _ => true
  | .globalVar _ => true
  | _ => false

/-- What one logical argument or result of a prototype is, once the C parameter
list is read by the usual conventions. -/
inductive Slot where
  /-- A fixed-size byte array of the declared length. -/
  | fixed (len : Nat)
  /-- A NUL-terminated character string. -/
  | text
  /-- A byte buffer given as a pointer together with an explicit length. -/
  | bytes
  /-- A byte pointer with no length beside it. -/
  | unsized
  /-- A scalar passed by value. -/
  | scalar (t : CType)
  /-- An untyped pointer. -/
  | handle
  deriving DecidableEq, Repr

/-- The logical inputs of a parameter list: const-qualified arrays and pointers
and by-value scalars. A `const uint8_t*` directly followed by a `size_t` is one
byte-buffer input; the `size_t` is its length and not an input of its own. -/
def inputs : List Param → List (Slot × String)
  | [] => []
  | ⟨.array (.const .uint8) n, x⟩ :: ps => (.fixed n, x) :: inputs ps
  | ⟨.ptr (.const .char), x⟩ :: ps => (.text, x) :: inputs ps
  | ⟨.ptr (.const .uint8), x⟩ :: ⟨.size, _⟩ :: ps => (.bytes, x) :: inputs ps
  | ⟨.ptr (.const .uint8), x⟩ :: ps => (.unsized, x) :: inputs ps
  | ⟨.ptr .void, x⟩ :: ps => (.handle, x) :: inputs ps
  | ⟨.size, x⟩ :: ps => (.scalar .size, x) :: inputs ps
  | ⟨.int, x⟩ :: ps => (.scalar .int, x) :: inputs ps
  | ⟨.char, x⟩ :: ps => (.scalar .char, x) :: inputs ps
  | ⟨.uint8, x⟩ :: ps => (.scalar .uint8, x) :: inputs ps
  | _ :: ps => inputs ps

/-- The logical outputs of a parameter list: writable arrays and pointers to
pointers. A `uint8_t**` directly followed by a `size_t*` is one byte-buffer
output with an explicit length; a `uint8_t**` on its own is an unsized one. -/
def outputs : List Param → List (Slot × String)
  | [] => []
  | ⟨.array .uint8 n, x⟩ :: ps => (.fixed n, x) :: outputs ps
  | ⟨.ptr (.ptr .uint8), x⟩ :: ⟨.ptr .size, _⟩ :: ps => (.bytes, x) :: outputs ps
  | ⟨.ptr (.ptr .uint8), x⟩ :: ps => (.unsized, x) :: outputs ps
  | ⟨.ptr (.ptr .char), x⟩ :: ps => (.text, x) :: outputs ps
  | _ :: ps => outputs ps

/-- A value written through an output parameter of type `out` can be passed as
an input parameter of type `inp`: both are arrays of the same length whose
elements agree up to the `const` qualifier of the input. -/
def passable : CType → CType → Bool
  | .array e n, .array (.const e') n' => decide (e = e') && decide (n = n')
  | _, _ => false

/-- The bytes a caller takes from the memory `mem` found at a returned pointer,
by kind of slot: `len` bytes when a length comes with the pointer, the declared
size for a fixed array, and everything before the first zero byte when nothing
else delimits the data. -/
def Slot.readBack : Slot → List (Fin 256) → Nat → List (Fin 256)
  | .bytes, mem, len => mem.take len
  | .fixed n, mem, _ => mem.take n
  | _, mem, _ => mem.takeWhile fun b => decide (b ≠ 0)

/-- The type of the parameter called `x` in a prototype, if it has one. -/
def Prototype.typeOf (p : Prototype) (x : String) : Option CType :=
  (p.params.find? (fun q => q.name == x)).map Param.type

/-! ## Part 2: the execution engine behind the interface -/

/-- One octet (`uint8_t`). -/
abbrev Byte := Fin 256

/-- Opaque byte sequences: module code, arguments, results, keys, values. -/
abbrev Bytes := List Byte

/-- Modelled from the spec: the ContractIdentity of section 3, "a fixed-size
(32-byte) content-derived identifier". The function bodies that produce and
consume it are missing from the sources. -/
abbrev ContractIdentity := { l : Bytes // l.length = 32 }

/-- Modelled from the spec: the status values of section 7's taxonomy, plus
success. The header returns them as `int`; the numbering is in the missing
runtime. -/
inductive Status where
  | ok
  | AlreadyInitialized
  | InvalidConfig
  | InvalidModule
  | ResourceExhausted
  | UnknownContract
  | UnknownFunction
  | BudgetExceeded
  | ExecutionTrapped
  | InvalidArgument
  | DoubleRelease
  | ForeignRelease
  deriving DecidableEq, Repr

/-- Modelled from the spec: what the parsed configuration provides to the
missing runtime, the "configured budget" of section 8 and the "configured
ceiling" on module size of section 4.2. -/
structure Config where
  budget : Nat
  moduleCeiling : Nat
  deriving DecidableEq, Repr

/-- Modelled from the spec: the Module of section 3, "the validated, loaded
binary artifact", with "the module's exported entry points" of section 4.3. -/
structure Module where
  code : Bytes
  entryPoints : List String
  deriving DecidableEq, Repr

/-- Modelled from the spec: the StateSnapshot of section 3, "the mapping of a
contract's persisted key/value pairs", as an association list. -/
abbrev Snapshot := List (Bytes × Bytes)

/-- First value bound to `k` in an association list. -/
def lookup {α β : Type} [DecidableEq α] (k : α) : List (α × β) → Option β
  | [] => none
  | (k', v) :: rest => if k' = k then some v else lookup k rest

/-- An association list without its bindings of `k`. -/
def erase {α β : Type} [DecidableEq α] (k : α) : List (α × β) → List (α × β)
  | [] => []
  | (k', v) :: rest => if k' = k then erase k rest else (k', v) :: erase k rest

/-- Modelled from the spec: the State Store's `read(identity, key) -> value |
absent` of section 4.4, on one contract's snapshot. -/
def Snapshot.read (s : Snapshot) (k : Bytes) : Option Bytes := lookup k s

/-- Modelled from the spec: one `(key, value)` write of section 4.4 applied to
a snapshot. -/
def Snapshot.write (s : Snapshot) (kv : Bytes × Bytes) : Snapshot :=
  (kv.1, kv.2) :: erase kv.1 s

/-- Modelled from the spec: what one metered step of a sandboxed module can do
(section 4.3): go on, read or write its own contract's state, finish with
result bytes, or trap. The instruction set behind it is a non-goal of the
spec, so the machine state `M` is left to the collaborator. -/
inductive Step (M : Type) where
  | next (m : M)
  | read (key : Bytes) (resume : Option Bytes → M)
  | write (key value : Bytes) (m : M)
  | halt (result : Bytes)
  | trap

/-- Modelled from the spec: the external collaborators of sections 1 and 4 that
the spec names but does not fix: configuration parsing, module validation, the
content-derived identity, the snapshot's byte encoding and the module's
instruction semantics. -/
structure Collaborators (M : Type) where
  parseConfig : String → Option Config
  loadModule : Bytes → Option Module
  identityOf : Bytes → ContractIdentity
  encodeSnapshot : Snapshot → Bytes
  enter : Module → String → Bytes → M
  step : M → Step M

/-- Modelled from the spec: the process-wide state that `init` allocates
(section 4.1: "identity registry, store handle"), with the Host Bridge's
owned-buffer registry of sections 7 and 9. `issued` counts the buffers handed
out so far; buffer `n` has pointer value `n`, and `0` is the null pointer. -/
structure Runtime where
  configText : String
  config : Config
  registry : List (ContractIdentity × Module)
  store : List (ContractIdentity × Snapshot)
  buffers : List (Nat × Bytes)
  issued : Nat
  deriving DecidableEq

/-- Modelled from the spec: the committed snapshot of a contract; a contract
that has never committed a write has the empty mapping. -/
def Runtime.snapshotOf (rt : Runtime) (id : ContractIdentity) : Snapshot :=
  (lookup id rt.store).getD []

/-- Modelled from the spec: section 4.1, `init(config)`: "a second call with
identical configuration is a no-op returning success; a second call with
conflicting configuration fails with AlreadyInitialized"; a first call
allocates the registry and the store, or fails with `InvalidConfig`. The
process state is `none` before the first successful call. -/
def init_runtime {M : Type} (env : Collaborators M) (st : Option Runtime)
    (config : String) : Option Runtime × Status :=
  match st with
  | some rt =>
    if rt.configText = config then (some rt, .ok) else (some rt, .AlreadyInitialized)
  | none =>
    match env.parseConfig config with
    | none => (none, .InvalidConfig)
    | some cfg =>
      (some { configText := config, config := cfg, registry := [], store := [],
              buffers := [], issued := 0 }, .ok)

/-- Modelled from the spec: what the missing body of `hypersdk_deploy_contract`
hands back (section 6): the runtime after the call, the status, and the
identity written to the 32-byte output on success. -/
structure DeployReply where
  runtime : Runtime
  status : Status
  contract_id : Option ContractIdentity
  deriving DecidableEq

/-- Modelled from the spec: section 4.2, `deploy(bytes) -> ContractIdentity`:
validate (`InvalidModule`), check the size ceiling (`ResourceExhausted`),
compute the identity from the content, register the module under it. A module
is "never mutated" and its identity "immutable once assigned", so an identity
already in the registry keeps its module. -/
def deploy_contract {M : Type} (env : Collaborators M) (rt : Runtime)
    (wasm_bytes : Bytes) : DeployReply :=
  match env.loadModule wasm_bytes with
  | none => ⟨rt, .InvalidModule, none⟩
  | some m =>
    if rt.config.moduleCeiling < wasm_bytes.length then ⟨rt, .ResourceExhausted, none⟩
    else
      let id := env.identityOf wasm_bytes
      match lookup id rt.registry with
      | some _ => ⟨rt, .ok, some id⟩
      | none => ⟨{ rt with registry := (id, m) :: rt.registry }, .ok, some id⟩

/-- Modelled from the spec: how a sandboxed run ends (section 4.3): with result
bytes and its buffered writes (newest first), or aborted with a failure
status. -/
inductive Outcome where
  | finished (result : Bytes) (pending : List (Bytes × Bytes))
  | aborted (s : Status)
  deriving DecidableEq, Repr

/-- Modelled from the spec: section 4.3's metered execution. Every step costs
one unit of budget; "any attempt to exceed the budget aborts the invocation and
fails with BudgetExceeded", a trap "fails with ExecutionTrapped", and "the
sandbox must buffer state mutations and apply them only on successful
completion". A read sees the invocation's own buffered writes before the
committed snapshot. -/
def execute {M : Type} (env : Collaborators M) (committed : Snapshot) :
    Nat → M → List (Bytes × Bytes) → Outcome
  | 0, _, _ => .aborted .BudgetExceeded
  | budget + 1, m, pending =>
    match env.step m with
    | .next m' => execute env committed budget m' pending
    | .read k resume =>
      execute env committed budget (resume ((lookup k pending).orElse fun _ => committed.read k))
        pending
    | .write k v m' => execute env committed budget m' ((k, v) :: pending)
    | .halt result => .finished result pending
    | .trap => .aborted .ExecutionTrapped

/-- Modelled from the spec: section 4.4's transactional `apply(identity, set of
(key,value) writes)`: the buffered writes, oldest first, replace the contract's
snapshot in one step. -/
def Runtime.apply (rt : Runtime) (id : ContractIdentity)
    (pending : List (Bytes × Bytes)) : Runtime :=
  { rt with store := (id, pending.reverse.foldl Snapshot.write (rt.snapshotOf id))
                       :: erase id rt.store }

/-- Modelled from the spec: section 4.3, `call(identity, function, args, budget)
-> bytes`: look the module up (`UnknownContract`), resolve the function
(`UnknownFunction`), execute under the budget, and commit the buffered writes
only when the run finished. -/
def call {M : Type} (env : Collaborators M) (rt : Runtime) (id : ContractIdentity)
    (function : String) (args : Bytes) (budget : Nat) : Runtime × Except Status Bytes :=
  match lookup id rt.registry with
  | none => (rt, .error .UnknownContract)
  | some m =>
    if function ∈ m.entryPoints then
      match execute env (rt.snapshotOf id) budget (env.enter m function args) [] with
      | .finished result pending => (rt.apply id pending, .ok result)
      | .aborted s => (rt, .error s)
    else (rt, .error .UnknownFunction)

/-- Modelled from the spec: section 4.5, "every buffer crossing from sandbox to
host is freshly allocated by the Bridge": the next pointer value is recorded in
the owned-buffer registry with the bytes it holds. -/
def Runtime.allocate (rt : Runtime) (bs : Bytes) : Runtime × Nat :=
  ({ rt with buffers := (rt.issued + 1, bs) :: rt.buffers, issued := rt.issued + 1 },
   rt.issued + 1)

/-- Modelled from the spec: what the missing bodies of `hypersdk_call_contract`
and `hypersdk_get_state` hand back (section 6): the runtime after the call, the
status, and on success the values written to the pointer and length outputs. -/
structure Reply where
  runtime : Runtime
  status : Status
  buffer : Option (Nat × Nat)
  deriving DecidableEq

/-- Modelled from the spec: a successful reply hands the bytes over in a fresh
buffer with their length. -/
def Runtime.reply (rt : Runtime) (bs : Bytes) : Reply :=
  ⟨(rt.allocate bs).1, .ok, some ((rt.allocate bs).2, bs.length)⟩

/-- Modelled from the spec: the bytes a caller reads from a reply, `len` bytes
at the returned pointer (section 6: "an explicit length out-parameter; no
implicit termination byte is relied upon"). -/
def Reply.bytes (r : Reply) : Option Bytes :=
  match r.buffer with
  | none => none
  | some (p, len) => (lookup p r.runtime.buffers).map (List.take len)

/-- Modelled from the spec: the boundary operation `call_contract` of section
6. The Host Bridge rejects a null identity and an argument buffer whose length
differs from the declared one (`InvalidArgument`, section 4.5), runs the call
under the configured budget, and returns the result in a fresh buffer. -/
def call_contract {M : Type} (env : Collaborators M) (rt : Runtime)
    (contract_id : Option ContractIdentity) (function : String) (args : Bytes)
    (args_len : Nat) : Reply :=
  match contract_id with
  | none => ⟨rt, .InvalidArgument, none⟩
  | some id =>
    if args.length = args_len then
      match call env rt id function args rt.config.budget with
      | (rt', .ok result) => rt'.reply result
      | (rt', .error s) => ⟨rt', s, none⟩
    else ⟨rt, .InvalidArgument, none⟩

/-- Modelled from the spec: section 4.3, "`get_state` is a pure read: returns
the committed StateSnapshot bytes for `identity`; never triggers execution;
fails with `UnknownContract` if absent". -/
def readState {M : Type} (env : Collaborators M) (rt : Runtime)
    (id : ContractIdentity) : Except Status Bytes :=
  match lookup id rt.registry with
  | none => .error .UnknownContract
  | some _ => .ok (env.encodeSnapshot (rt.snapshotOf id))

/-- Modelled from the spec: the boundary operation `get_state` of section 6:
the state bytes in a fresh caller-owned buffer, or `UnknownContract`. -/
def get_state {M : Type} (env : Collaborators M) (rt : Runtime)
    (contract_id : ContractIdentity) : Reply :=
  match readState env rt contract_id with
  | .ok bs => rt.reply bs
  | .error s => ⟨rt, s, none⟩

/-- Modelled from the spec: the boundary operation `free_buffer` of section 6
with the defensive detection of section 7: a null pointer is a no-op, an owned
buffer is released, a pointer that was issued and is no longer owned is a
`DoubleRelease`, any other pointer a `ForeignRelease`; the last two leave the
runtime as it is. -/
def free_buffer (rt : Runtime) (ptr : Nat) : Runtime × Status :=
  if ptr = 0 then (rt, .ok)
  else
    match lookup ptr rt.buffers with
    | some _ => ({ rt with buffers := erase ptr rt.buffers }, .ok)
    | none => if ptr ≤ rt.issued then (rt, .DoubleRelease) else (rt, .ForeignRelease)

/-- Modelled from the spec: one request a caller makes at the boundary of an
initialised runtime, one constructor per operation of section 6. -/
inductive Request where
  | deploy (wasm_bytes : Bytes)
  | call (contract_id : Option ContractIdentity) (function : String) (args : Bytes)
      (args_len : Nat)
  | getState (contract_id : ContractIdentity)
  | free (ptr : Nat)
  deriving DecidableEq

/-- Modelled from the spec: the runtime after serving one request. -/
def Request.serve {M : Type} (env : Collaborators M) (rt : Runtime) : Request → Runtime
  | .deploy w => (deploy_contract env rt w).runtime
  | .call c f a n => (call_contract env rt c f a n).runtime
  | .getState id => (get_state env rt id).runtime
  | .free p => (free_buffer rt p).1

/-- Modelled from the spec: the runtime after serving a sequence of requests,
first to last. -/
def serveAll {M : Type} (env : Collaborators M) (rt : Runtime) (rs : List Request) : Runtime :=
  rs.foldl (Request.serve env) rt

/-! ## A concrete instance: the counter contract of the spec's scenarios -/

/-- The machine states of a three-function example module: `increment` reads
the counter, writes it back plus one and returns it; `spin` writes forever;
`crash` writes once and traps. -/
inductive Counter where
  | fetch
  | store (n : Byte)
  | finish (result : Bytes)
  | spin
  | crash (armed : Bool)
  deriving DecidableEq, Repr

/-- One step of the example module. -/
def Counter.step : Counter → Step Counter
  | .fetch => .read [0] fun v =>
      match v with
      | some [n] => .store (n + 1)
      | _ => .store 1
  | .store n => .write [0] [n] (.finish [n])
  | .finish result => .halt result
  | .spin => .write [7] [7] .spin
  | .crash true => .write [0] [99] (.crash false)
  | .crash false => .trap

/-- The entry state of each exported function of the example module. -/
def Counter.enter (_ : Module) (function : String) (_ : Bytes) : Counter :=
  if function = "increment" then .fetch
  else if function = "spin" then .spin
  else .crash true

/-- The example loader accepts byte sequences that start with the four magic
bytes `\0asm`; every accepted module exports the three functions. -/
def Counter.load (w : Bytes) : Option Module :=
  if w.take 4 = [0, 97, 115, 109] then
    some { code := w, entryPoints := ["increment", "spin", "crash"] }
  else none

/-- The example identity: the content cut or zero-padded to 32 bytes. -/
def Counter.identityOf (w : Bytes) : ContractIdentity :=
  ⟨(w ++ List.replicate 32 0).take 32, by simp⟩

/-- The example configuration: the empty text is invalid, any other text gives
a budget of its length and a module ceiling of 64 bytes. -/
def Counter.parseConfig (config : String) : Option Config :=
  if config = "" then none else some { budget := config.length, moduleCeiling := 64 }

/-- The example snapshot encoding: keys and values in order, flattened. -/
def Counter.encode (s : Snapshot) : Bytes :=
  s.flatMap fun kv => kv.1 ++ kv.2

/-- The example collaborators. -/
def counterEnv : Collaborators Counter :=
  { parseConfig := Counter.parseConfig
    loadModule := Counter.load
    identityOf := Counter.identityOf
    encodeSnapshot := Counter.encode
    enter := Counter.enter
    step := Counter.step }

/-- The example module's bytes: the magic and a version word. -/
def counterWasm : Bytes := [0, 97, 115, 109, 1, 0, 0, 0]

/-- The example module's identity. -/
def counterId : ContractIdentity := Counter.identityOf counterWasm

/-- A runtime initialised with the eight-character configuration `budget=8`. -/
def freshRuntime : Runtime :=
  { configText := "budget=8", config := ⟨8, 64⟩, registry := [], store := [],
    buffers := [], issued := 0 }

/-- The example runtime after deploying the example module. -/
def deployedRuntime : Runtime := (deploy_contract counterEnv freshRuntime counterWasm).runtime

/-- The example runtime after one successful `increment`: the counter is 1 and
one result buffer is owned by the caller. -/
def countedRuntime : Runtime :=
  (call_contract counterEnv deployedRuntime (some counterId) "increment" [] 0).runtime

/-! ## Part 3: properties of the declarations -/

/-- C4, as stated, fails on the header: the logical inputs of
`hypersdk_call_contract` are not the identity, the function name, the argument
bytes and a fourth scalar (a budget); there are not four of them, and none of
them is a scalar. -/
theorem call_contract_has_no_budget_input :
    ¬ ((inputs hypersdk_call_contract.params).length = 4 ∨
       ∃ t x, (Slot.scalar t, x) ∈ inputs hypersdk_call_contract.params) := by
  have h : inputs hypersdk_call_contract.params =
      [(.fixed 32, "contract_id"), (.text, "function"), (.bytes, "args")] := by decide
  rw [h]
  rintro (h4 | ⟨t, x, hx⟩)
  · exact absurd h4 (by decide)
  · simp at hx

/-- C4, amended: `hypersdk_call_contract` declares six parameters; read as
logical slots they are three inputs (the 32-byte contract identity, the
function name as text, the argument bytes as pointer with length) and one
output (the result bytes with their length). No parameter carries a budget. -/
theorem call_contract_inputs :
    hypersdk_call_contract.params.map Param.name =
      ["contract_id", "function", "args", "args_len", "result", "result_len"] ∧
    inputs hypersdk_call_contract.params =
      [(.fixed 32, "contract_id"), (.text, "function"), (.bytes, "args")] ∧
    outputs hypersdk_call_contract.params = [(.bytes, "result")] := by
  decide

/-- C5: the operations of the header with a variable-length byte result are
exactly `hypersdk_call_contract` and `hypersdk_get_state`; each returns it as a
`uint8_t**` buffer directly followed by a `size_t*` length, no output of any
operation is an unsized pointer or a terminated string, and reading a
length-paired buffer back yields every byte sequence in full, zero bytes
included, where a terminator-delimited read stops at the first zero. -/
theorem byte_results_carry_explicit_length :
    ((prototypes wrapper_h).filter fun p =>
        (outputs p.params).any fun s => decide (s.1 = Slot.bytes)).map Prototype.name
      = ["hypersdk_call_contract", "hypersdk_get_state"] ∧
    outputs hypersdk_call_contract.params = [(.bytes, "result")] ∧
    outputs hypersdk_get_state.params = [(.bytes, "state")] ∧
    hypersdk_call_contract.typeOf "result" = some (.ptr (.ptr .uint8)) ∧
    hypersdk_call_contract.typeOf "result_len" = some (.ptr .size) ∧
    hypersdk_get_state.typeOf "state" = some (.ptr (.ptr .uint8)) ∧
    hypersdk_get_state.typeOf "state_len" = some (.ptr .size) ∧
    ((prototypes wrapper_h).all fun p =>
        (outputs p.params).all fun s =>
          decide (s.1 ≠ Slot.unsized) && decide (s.1 ≠ Slot.text)) = true ∧
    (∀ bs rest : List (Fin 256), Slot.bytes.readBack (bs ++ rest) bs.length = bs) ∧
    Slot.bytes.readBack [1, 0, 2, 0] 4 = [1, 0, 2, 0] ∧
    Slot.unsized.readBack [1, 0, 2, 0] 4 = [1] := by
  refine ⟨by decide, by decide, by decide, by decide, by decide, by decide, by decide,
    by decide, ?_, by decide, by decide⟩
  intro bs rest
  simp [Slot.readBack]

/-- C6: the contract identity is a 32-byte array of `uint8_t` wherever the
header declares it: `hypersdk_deploy_contract` writes one through a writable
`uint8_t[32]` output, `hypersdk_call_contract` and `hypersdk_get_state` take
one as a `const uint8_t[32]` input, and the output's type can be passed as
either input. -/
theorem contract_identity_is_32_bytes_throughout :
    hypersdk_deploy_contract.typeOf "contract_id" = some (.array .uint8 32) ∧
    hypersdk_call_contract.typeOf "contract_id" = some (.array (.const .uint8) 32) ∧
    hypersdk_get_state.typeOf "contract_id" = some (.array (.const .uint8) 32) ∧
    outputs hypersdk_deploy_contract.params = [(.fixed 32, "contract_id")] ∧
    (inputs hypersdk_call_contract.params).head? = some (.fixed 32, "contract_id") ∧
    inputs hypersdk_get_state.params = [(.fixed 32, "contract_id")] ∧
    passable (.array .uint8 32) (.array (.const .uint8) 32) = true ∧
    ((prototypes wrapper_h).all fun p =>
        p.params.all fun q =>
          decide (q.name = "contract_id" →
            q.type = .array .uint8 32 ∨ q.type = .array (.const .uint8) 32)) = true := by
  decide

/-- C7: the four operations that can fail return an `int` status, and they are
the only ones that return a value (the buffer release returns `void`); every
data output is a parameter, so the returned status is separate from the data. -/
theorem fallible_operations_return_a_status :
    ((prototypes wrapper_h).filter fun p => decide (p.ret = CType.int)).map Prototype.name
      = ["hypersdk_init_runtime", "hypersdk_deploy_contract",
         "hypersdk_call_contract", "hypersdk_get_state"] ∧
    ((prototypes wrapper_h).filter fun p => decide (p.ret ≠ CType.int)).map
        (fun p => (p.name, p.ret))
      = [("hypersdk_free_buffer", CType.void)] ∧
    outputs hypersdk_init_runtime.params = [] ∧
    outputs hypersdk_deploy_contract.params = [(.fixed 32, "contract_id")] ∧
    outputs hypersdk_call_contract.params = [(.bytes, "result")] ∧
    outputs hypersdk_get_state.params = [(.bytes, "state")] := by
  decide

/-- C8: `wrapper.h` declares exactly five entry points (initialisation,
deployment, invocation, state retrieval, buffer release); its seven items are
two include lines and five prototypes, none with a function body and none
defining a data structure. -/
theorem interface_is_five_declarations :
    (prototypes wrapper_h).map Prototype.name =
      ["hypersdk_init_runtime", "hypersdk_deploy_contract", "hypersdk_call_contract",
       "hypersdk_get_state", "hypersdk_free_buffer"] ∧
    wrapper_h.length = 7 ∧
    wrapper_h.all Item.isDeclaration = true ∧
    wrapper_h.any Item.hasBody = false ∧
    wrapper_h.any Item.definesData = false := by
  decide

/-! ## Part 4: properties of the modelled engine -/

/-- After erasing a key, looking it up finds nothing. -/
theorem lookup_erase_self {α β : Type} [DecidableEq α] (k : α) (l : List (α × β)) :
    lookup k (erase k l) = none := by
  induction l with
  | nil => rfl
  | cons kv rest ih =>
    obtain ⟨k', v⟩ := kv
    by_cases h : k' = k
    · simp [erase, h, ih]
    · simp [erase, lookup, h, ih]

/-- Erasing one key leaves the lookup of every other key as it was. -/
theorem lookup_erase_ne {α β : Type} [DecidableEq α] {k k' : α} (hne : k ≠ k')
    (l : List (α × β)) : lookup k (erase k' l) = lookup k l := by
  induction l with
  | nil => rfl
  | cons kv rest ih =>
    obtain ⟨k'', v⟩ := kv
    by_cases h : k'' = k'
    · subst h
      have h2 : ¬ k'' = k := fun e => hne e.symm
      simp [erase, lookup, h2, ih]
    · by_cases h3 : k'' = k
      · subst h3
        simp [erase, lookup, h]
      · simp [erase, lookup, h, h3, ih]

/-- The caller reads back from a successful reply exactly the bytes handed over. -/
theorem reply_bytes (rt : Runtime) (bs : Bytes) : (rt.reply bs).bytes = some bs := by
  simp [Runtime.reply, Reply.bytes, Runtime.allocate, lookup]

/-- A sandbox call that ends in an error leaves the runtime as it was. -/
theorem call_error_runtime {M : Type} (env : Collaborators M) (rt : Runtime)
    (id : ContractIdentity) (function : String) (args : Bytes) (budget : Nat) (s : Status)
    (h : (call env rt id function args budget).2 = .error s) :
    (call env rt id function args budget).1 = rt := by
  unfold call at h ⊢
  cases hL : lookup id rt.registry with
  | none => rfl
  | some m =>
    simp only [hL] at h ⊢
    by_cases hf : function ∈ m.entryPoints
    · simp only [hf, if_true] at h ⊢
      cases hE : execute env (rt.snapshotOf id) budget (env.enter m function args) [] with
      | finished r pending => simp [hE] at h
      | aborted s' => rfl
    · simp only [hf, if_false]

/-- A boundary call that does not report `ok` leaves the runtime as it was. -/
theorem call_contract_failure_runtime {M : Type} (env : Collaborators M) (rt : Runtime)
    (contract_id : Option ContractIdentity) (function : String) (args : Bytes)
    (args_len : Nat)
    (h : (call_contract env rt contract_id function args args_len).status ≠ .ok) :
    (call_contract env rt contract_id function args args_len).runtime = rt := by
  unfold call_contract at h ⊢
  cases contract_id with
  | none => rfl
  | some id =>
    simp only at h ⊢
    by_cases hlen : args.length = args_len
    · simp only [hlen, if_true] at h ⊢
      cases hC : call env rt id function args rt.config.budget with
      | mk rt' res =>
        cases res with
        | ok result => simp [hC, Runtime.reply] at h
        | error s =>
          have hrt := call_error_runtime env rt id function args rt.config.budget s
            (by rw [hC])
          rw [hC] at hrt
          simpa using hrt
    · simp only [hlen, if_false]

/-- The state read depends on the registry and the store only. -/
theorem readState_congr {M : Type} (env : Collaborators M) (rt rt' : Runtime)
    (id : ContractIdentity) (hreg : rt'.registry = rt.registry) (hstore : rt'.store = rt.store) :
    readState env rt' id = readState env rt id := by
  simp [readState, Runtime.snapshotOf, hreg, hstore]

/-- What a caller observes of `get_state` (status and bytes) is determined by
the state read. -/
theorem get_state_observed {M : Type} (env : Collaborators M) (rt rt' : Runtime)
    (id : ContractIdentity) (h : readState env rt' id = readState env rt id) :
    (get_state env rt' id).status = (get_state env rt id).status ∧
    (get_state env rt' id).bytes = (get_state env rt id).bytes := by
  unfold get_state
  rw [h]
  cases readState env rt id with
  | ok bs => exact ⟨rfl, by rw [reply_bytes, reply_bytes]⟩
  | error s => exact ⟨rfl, rfl⟩

/-- Handing over a reply touches the buffer registry only. -/
theorem reply_frame (rt : Runtime) (bs : Bytes) :
    (rt.reply bs).runtime.registry = rt.registry ∧
    (rt.reply bs).runtime.store = rt.store ∧
    (rt.reply bs).runtime.config = rt.config ∧
    (rt.reply bs).runtime.configText = rt.configText :=
  ⟨rfl, rfl, rfl, rfl⟩

/-- The buffer of a fresh reply is non-null, owned, and counted as issued. -/
theorem reply_buffer_owned (rt : Runtime) (bs : Bytes) (p n : Nat)
    (h : (rt.reply bs).buffer = some (p, n)) :
    p ≠ 0 ∧ lookup p (rt.reply bs).runtime.buffers = some bs ∧
    p ≤ (rt.reply bs).runtime.issued := by
  simp only [Runtime.reply, Runtime.allocate, Option.some.injEq, Prod.mk.injEq] at h ⊢
  obtain ⟨hp, _⟩ := h
  subst hp
  simp [lookup]

/-- A buffer that was issued and is no longer owned stays so when another
buffer is handed out. -/
theorem reply_keeps_released (rt : Runtime) (bs : Bytes) (p : Nat)
    (h1 : lookup p rt.buffers = none) (h2 : p ≤ rt.issued) :
    lookup p (rt.reply bs).runtime.buffers = none ∧ p ≤ (rt.reply bs).runtime.issued := by
  have hne : ¬ rt.issued + 1 = p := by omega
  simp only [Runtime.reply, Runtime.allocate, lookup, hne, if_false]
  exact ⟨h1, by omega⟩

/-- A sandbox call does not touch the buffer registry. -/
theorem call_buffers {M : Type} (env : Collaborators M) (rt : Runtime)
    (id : ContractIdentity) (function : String) (args : Bytes) (budget : Nat) :
    (call env rt id function args budget).1.buffers = rt.buffers ∧
    (call env rt id function args budget).1.issued = rt.issued := by
  unfold call
  cases lookup id rt.registry with
  | none => exact ⟨rfl, rfl⟩
  | some m =>
    by_cases hf : function ∈ m.entryPoints
    · simp only [hf, if_true]
      cases execute env (rt.snapshotOf id) budget (env.enter m function args) [] with
      | finished r pending => exact ⟨rfl, rfl⟩
      | aborted s' => exact ⟨rfl, rfl⟩
    · simp [hf]

/-- A boundary call that returns a buffer returned a fresh reply. -/
theorem call_contract_buffer {M : Type} (env : Collaborators M) (rt : Runtime)
    (contract_id : Option ContractIdentity) (function : String) (args : Bytes)
    (args_len : Nat) :
    (∃ id result, call_contract env rt contract_id function args args_len =
        (call env rt id function args rt.config.budget).1.reply result) ∨
    ((call_contract env rt contract_id function args args_len).buffer = none ∧
     (call_contract env rt contract_id function args args_len).runtime.buffers = rt.buffers ∧
     (call_contract env rt contract_id function args args_len).runtime.issued = rt.issued) := by
  unfold call_contract
  cases contract_id with
  | none => exact Or.inr ⟨rfl, rfl, rfl⟩
  | some id =>
    by_cases hlen : args.length = args_len
    · simp only [hlen, if_true]
      have hb := call_buffers env rt id function args rt.config.budget
      cases hC : call env rt id function args rt.config.budget with
      | mk rt' res =>
        rw [hC] at hb
        cases res with
        | ok result => exact Or.inl ⟨id, result, by rw [hC]⟩
        | error s => exact Or.inr ⟨rfl, hb.1, hb.2⟩
    · exact Or.inr (by simp [hlen])

/-- A state read that returns a buffer returned a fresh reply. -/
theorem get_state_buffer {M : Type} (env : Collaborators M) (rt : Runtime)
    (id : ContractIdentity) :
    (∃ bs, get_state env rt id = rt.reply bs) ∨
    ((get_state env rt id).buffer = none ∧ (get_state env rt id).runtime = rt) := by
  unfold get_state
  cases readState env rt id with
  | ok bs => exact Or.inl ⟨bs, rfl⟩
  | error s => exact Or.inr ⟨rfl, rfl⟩

/-- Releasing leaves a released buffer released. -/
theorem free_keeps_released (rt : Runtime) (q p : Nat)
    (h1 : lookup p rt.buffers = none) (h2 : p ≤ rt.issued) :
    lookup p (free_buffer rt q).1.buffers = none ∧ p ≤ (free_buffer rt q).1.issued := by
  unfold free_buffer
  by_cases hq : q = 0
  · simp only [hq, if_true]
    exact ⟨h1, h2⟩
  · simp only [hq, if_false]
    cases hL : lookup q rt.buffers with
    | none =>
      by_cases hi : q ≤ rt.issued
      · simp only [hi, if_true]
        exact ⟨h1, h2⟩
      · simp only [hi, if_false]
        exact ⟨h1, h2⟩
    | some bs =>
      refine ⟨?_, h2⟩
      by_cases hpq : p = q
      · subst hpq
        exact lookup_erase_self p rt.buffers
      · show lookup p (erase q rt.buffers) = none
        rw [lookup_erase_ne hpq]
        exact h1

/-- Deploying does not touch the buffer registry. -/
theorem deploy_buffers {M : Type} (env : Collaborators M) (rt : Runtime) (w : Bytes) :
    (deploy_contract env rt w).runtime.buffers = rt.buffers ∧
    (deploy_contract env rt w).runtime.issued = rt.issued := by
  unfold deploy_contract
  cases env.loadModule w with
  | none => exact ⟨rfl, rfl⟩
  | some m =>
    by_cases hc : rt.config.moduleCeiling < w.length
    · simp [hc]
    · simp only [hc, if_false]
      cases lookup (env.identityOf w) rt.registry with
      | none => exact ⟨rfl, rfl⟩
      | some m' => exact ⟨rfl, rfl⟩

/-- No request brings a released buffer back into the owned-buffer registry. -/
theorem serve_keeps_released {M : Type} (env : Collaborators M) (rt : Runtime)
    (req : Request) (p : Nat) (h1 : lookup p rt.buffers = none) (h2 : p ≤ rt.issued) :
    lookup p (req.serve env rt).buffers = none ∧ p ≤ (req.serve env rt).issued := by
  cases req with
  | deploy w =>
    have h := deploy_buffers env rt w
    simp only [Request.serve, h.1, h.2]
    exact ⟨h1, h2⟩
  | call c f a n =>
    simp only [Request.serve]
    rcases call_contract_buffer env rt c f a n with ⟨id, result, he⟩ | ⟨_, hb, hi⟩
    · rw [he]
      have hc := call_buffers env rt id f a rt.config.budget
      exact reply_keeps_released _ result p (by rw [hc.1]; exact h1) (by rw [hc.2]; exact h2)
    · rw [hb, hi]
      exact ⟨h1, h2⟩
  | getState id =>
    simp only [Request.serve]
    rcases get_state_buffer env rt id with ⟨bs, he⟩ | ⟨_, hr⟩
    · rw [he]
      exact reply_keeps_released rt bs p h1 h2
    · rw [hr]
      exact ⟨h1, h2⟩
  | free q => exact free_keeps_released rt q p h1 h2

/-- No sequence of requests brings a released buffer back. -/
theorem serveAll_keeps_released {M : Type} (env : Collaborators M) (reqs : List Request)
    (rt : Runtime) (p : Nat) (h1 : lookup p rt.buffers = none) (h2 : p ≤ rt.issued) :
    lookup p (serveAll env rt reqs).buffers = none ∧ p ≤ (serveAll env rt reqs).issued := by
  induction reqs generalizing rt with
  | nil => exact ⟨h1, h2⟩
  | cons req rest ih =>
    have h := serve_keeps_released env rt req p h1 h2
    exact ih (req.serve env rt) h.1 h.2

/-- The counter scenario of the spec's section 8 on the modelled engine: the
first `increment` returns 1, the second returns 2, and `get_state` then shows
the committed counter (key 0, value 2). -/
theorem counter_scenario :
    (call_contract counterEnv deployedRuntime (some counterId) "increment" [] 0).bytes
      = some [1] ∧
    (call_contract counterEnv countedRuntime (some counterId) "increment" [] 0).bytes
      = some [2] ∧
    (get_state counterEnv
        (call_contract counterEnv countedRuntime (some counterId) "increment" [] 0).runtime
        counterId).bytes = some [0, 2] := by
  decide

/-- Releasing an owned, non-null buffer removes it from the registry and
reports success. -/
theorem free_owned (rt : Runtime) (p : Nat) (bs : Bytes) (hp : p ≠ 0)
    (ho : lookup p rt.buffers = some bs) :
    free_buffer rt p = ({ rt with buffers := erase p rt.buffers }, .ok) := by
  simp [free_buffer, hp, ho]

/-- Releasing a buffer that was issued and is no longer owned is reported as a
double release and changes nothing. -/
theorem free_released (rt : Runtime) (p : Nat) (hp : p ≠ 0)
    (h1 : lookup p rt.buffers = none) (h2 : p ≤ rt.issued) :
    free_buffer rt p = (rt, .DoubleRelease) := by
  simp [free_buffer, hp, h1, h2]

/-- C1: a `call_contract` invocation that fails, for whatever reason (budget
exceeded, execution trapped, unknown function, unknown contract, invalid
argument), leaves what `get_state` returns for every contract identity as it
was before the call: same status and same state bytes. -/
theorem call_contract_failure_is_atomic {M : Type} (env : Collaborators M) (rt : Runtime)
    (contract_id : Option ContractIdentity) (function : String) (args : Bytes)
    (args_len : Nat) (id : ContractIdentity)
    (hfail : (call_contract env rt contract_id function args args_len).status ≠ .ok) :
    (get_state env (call_contract env rt contract_id function args args_len).runtime id).status
      = (get_state env rt id).status ∧
    (get_state env (call_contract env rt contract_id function args args_len).runtime id).bytes
      = (get_state env rt id).bytes := by
  rw [call_contract_failure_runtime env rt contract_id function args args_len hfail]
  exact ⟨rfl, rfl⟩

/-- C1 at the counter contract with counter 1: `spin` exceeds the budget after
buffering writes, `crash` traps after buffering a write, `nope` is not
exported; after each, `get_state` returns the same bytes as before. -/
theorem call_contract_failure_is_atomic_witness :
    ((call_contract counterEnv countedRuntime (some counterId) "spin" [] 0).status
        = .BudgetExceeded ∧
      (get_state counterEnv
          (call_contract counterEnv countedRuntime (some counterId) "spin" [] 0).runtime
          counterId).bytes = (get_state counterEnv countedRuntime counterId).bytes) ∧
    ((call_contract counterEnv countedRuntime (some counterId) "crash" [] 0).status
        = .ExecutionTrapped ∧
      (get_state counterEnv
          (call_contract counterEnv countedRuntime (some counterId) "crash" [] 0).runtime
          counterId).bytes = (get_state counterEnv countedRuntime counterId).bytes) ∧
    ((call_contract counterEnv countedRuntime (some counterId) "nope" [] 0).status
        = .UnknownFunction ∧
      (get_state counterEnv
          (call_contract counterEnv countedRuntime (some counterId) "nope" [] 0).runtime
          counterId).bytes = (get_state counterEnv countedRuntime counterId).bytes) ∧
    (get_state counterEnv countedRuntime counterId).bytes = some [0, 1] :=
  ⟨⟨by decide,
     (call_contract_failure_is_atomic counterEnv countedRuntime (some counterId) "spin" [] 0
       counterId (by decide)).2⟩,
   ⟨by decide,
     (call_contract_failure_is_atomic counterEnv countedRuntime (some counterId) "crash" [] 0
       counterId (by decide)).2⟩,
   ⟨by decide,
     (call_contract_failure_is_atomic counterEnv countedRuntime (some counterId) "nope" [] 0
       counterId (by decide)).2⟩,
   by decide⟩

/-- C2: for every valid module (accepted by the loader, within the size
ceiling) `deploy_contract` succeeds and writes the identity derived from the
bytes; a second deploy of the same bytes succeeds again, writes the same
identity and leaves the runtime as the first deploy left it; the identity is
32 bytes long and does not depend on the runtime it is deployed to. -/
theorem deploy_contract_is_idempotent {M : Type} (env : Collaborators M) (rt : Runtime)
    (wasm_bytes : Bytes) (hvalid : (env.loadModule wasm_bytes).isSome = true)
    (hsize : wasm_bytes.length ≤ rt.config.moduleCeiling) :
    (deploy_contract env rt wasm_bytes).status = .ok ∧
    (deploy_contract env rt wasm_bytes).contract_id = some (env.identityOf wasm_bytes) ∧
    deploy_contract env (deploy_contract env rt wasm_bytes).runtime wasm_bytes =
      ⟨(deploy_contract env rt wasm_bytes).runtime, .ok, some (env.identityOf wasm_bytes)⟩ ∧
    (env.identityOf wasm_bytes).val.length = 32 ∧
    (∀ rt' : Runtime, wasm_bytes.length ≤ rt'.config.moduleCeiling →
      (deploy_contract env rt' wasm_bytes).contract_id =
        (deploy_contract env rt wasm_bytes).contract_id) := by
  cases hL : env.loadModule wasm_bytes with
  | none => simp [hL] at hvalid
  | some m =>
    have key : ∀ r : Runtime, wasm_bytes.length ≤ r.config.moduleCeiling →
        (deploy_contract env r wasm_bytes).status = .ok ∧
        (deploy_contract env r wasm_bytes).contract_id = some (env.identityOf wasm_bytes) ∧
        (deploy_contract env r wasm_bytes).runtime.config = r.config ∧
        lookup (env.identityOf wasm_bytes) (deploy_contract env r wasm_bytes).runtime.registry
          ≠ none ∧
        (lookup (env.identityOf wasm_bytes) r.registry ≠ none →
          (deploy_contract env r wasm_bytes).runtime = r) := by
      intro r hr
      have hc : ¬ r.config.moduleCeiling < wasm_bytes.length := by omega
      unfold deploy_contract
      simp only [hL, hc, if_false]
      cases hR : lookup (env.identityOf wasm_bytes) r.registry with
      | none => simp [lookup]
      | some m' => simp [hR]
    obtain ⟨h1, h2, h3, h4, _⟩ := key rt hsize
    obtain ⟨k1, k2, _, _, k5⟩ := key (deploy_contract env rt wasm_bytes).runtime
      (by rw [h3]; exact hsize)
    refine ⟨h1, h2, ?_, (env.identityOf wasm_bytes).property, ?_⟩
    · have hrt := k5 h4
      cases hD : deploy_contract env (deploy_contract env rt wasm_bytes).runtime wasm_bytes with
      | mk r s c =>
        rw [hD] at k1 k2 hrt
        simp only at k1 k2 hrt
        rw [k1, k2, hrt]
    · intro rt' hrt'
      rw [(key rt' hrt').2.1, h2]

/-- C2 at the example module: deployed twice to the fresh runtime, both deploys
succeed with the same identity. -/
theorem deploy_contract_is_idempotent_witness :
    (counterEnv.loadModule counterWasm).isSome = true ∧
    counterWasm.length ≤ freshRuntime.config.moduleCeiling ∧
    (deploy_contract counterEnv freshRuntime counterWasm).status = .ok ∧
    (deploy_contract counterEnv freshRuntime counterWasm).contract_id = some counterId ∧
    deploy_contract counterEnv deployedRuntime counterWasm =
      ⟨deployedRuntime, .ok, some counterId⟩ :=
  ⟨by decide, by decide,
   (deploy_contract_is_idempotent counterEnv freshRuntime counterWasm (by decide)
     (by decide)).1,
   (deploy_contract_is_idempotent counterEnv freshRuntime counterWasm (by decide)
     (by decide)).2.1,
   (deploy_contract_is_idempotent counterEnv freshRuntime counterWasm (by decide)
     (by decide)).2.2.1⟩

/-- C3: `get_state` leaves the registry, the store (hence every contract's
committed snapshot) and the configuration unchanged; a second `get_state` on
the same identity right after the first returns the same status and the same
bytes; on an identity that is not deployed it fails with `UnknownContract`,
returns no buffer and changes nothing; on a deployed one it succeeds with the
encoded committed snapshot. -/
theorem get_state_is_pure_read {M : Type} (env : Collaborators M) (rt : Runtime)
    (id : ContractIdentity) :
    (get_state env rt id).runtime.registry = rt.registry ∧
    (get_state env rt id).runtime.store = rt.store ∧
    (get_state env rt id).runtime.config = rt.config ∧
    (∀ id', (get_state env rt id).runtime.snapshotOf id' = rt.snapshotOf id') ∧
    (get_state env (get_state env rt id).runtime id).status = (get_state env rt id).status ∧
    (get_state env (get_state env rt id).runtime id).bytes = (get_state env rt id).bytes ∧
    (lookup id rt.registry = none →
      (get_state env rt id).status = .UnknownContract ∧
      (get_state env rt id).buffer = none ∧
      (get_state env rt id).runtime = rt) ∧
    (∀ m, lookup id rt.registry = some m →
      (get_state env rt id).status = .ok ∧
      (get_state env rt id).bytes = some (env.encodeSnapshot (rt.snapshotOf id))) := by
  have frame : (get_state env rt id).runtime.registry = rt.registry ∧
      (get_state env rt id).runtime.store = rt.store ∧
      (get_state env rt id).runtime.config = rt.config := by
    rcases get_state_buffer env rt id with ⟨bs, he⟩ | ⟨_, hr⟩
    · rw [he]
      exact ⟨rfl, rfl, rfl⟩
    · rw [hr]
      exact ⟨rfl, rfl, rfl⟩
  have obs := get_state_observed env rt (get_state env rt id).runtime id
    (readState_congr env rt _ id frame.1 frame.2.1)
  refine ⟨frame.1, frame.2.1, frame.2.2, ?_, obs.1, obs.2, ?_, ?_⟩
  · intro id'
    simp only [Runtime.snapshotOf, frame.2.1]
  · intro hnone
    simp [get_state, readState, hnone]
  · intro m hsome
    unfold get_state
    simp only [readState, hsome]
    exact ⟨rfl, reply_bytes _ _⟩

/-- C9: whenever `init_runtime` with configuration `c` succeeds, calling it
again with the same `c` returns success and leaves the process state as it is,
and calling it again with any other configuration fails with
`AlreadyInitialized`, again leaving the state as it is. -/
theorem init_runtime_is_idempotent {M : Type} (env : Collaborators M) (st : Option Runtime)
    (c : String) (hok : (init_runtime env st c).2 = .ok) :
    init_runtime env (init_runtime env st c).1 c = ((init_runtime env st c).1, .ok) ∧
    (∀ c', c' ≠ c →
      init_runtime env (init_runtime env st c).1 c' =
        ((init_runtime env st c).1, .AlreadyInitialized)) := by
  cases st with
  | some rt =>
    by_cases hc : rt.configText = c
    · subst hc
      refine ⟨by simp [init_runtime], ?_⟩
      intro c' hne
      simp [init_runtime, Ne.symm hne]
    · simp [init_runtime, hc] at hok
  | none =>
    cases hP : env.parseConfig c with
    | none => simp [init_runtime, hP] at hok
    | some cfg =>
      refine ⟨by simp [init_runtime, hP], ?_⟩
      intro c' hne
      simp [init_runtime, hP, Ne.symm hne]

/-- C9 at the example configuration `budget=8`: the first call initialises the
fresh runtime, the second with the same text is a successful no-op, and one
with `budget=16` fails with `AlreadyInitialized`. -/
theorem init_runtime_is_idempotent_witness :
    init_runtime counterEnv none "budget=8" = (some freshRuntime, .ok) ∧
    init_runtime counterEnv (init_runtime counterEnv none "budget=8").1 "budget=8" =
      ((init_runtime counterEnv none "budget=8").1, .ok) ∧
    init_runtime counterEnv (init_runtime counterEnv none "budget=8").1 "budget=16" =
      ((init_runtime counterEnv none "budget=8").1, .AlreadyInitialized) :=
  ⟨by decide,
   (init_runtime_is_idempotent counterEnv none "budget=8" (by decide)).1,
   (init_runtime_is_idempotent counterEnv none "budget=8" (by decide)).2 "budget=16"
     (by decide)⟩

/-- C10: for every buffer returned by `call_contract` or `get_state`, the first
`free_buffer` succeeds; a second `free_buffer` on the same pointer, right away
or after any sequence of later requests, is reported as `DoubleRelease` and
leaves the runtime exactly as it found it; and `free_buffer` on the null
pointer is a no-op in every runtime. -/
theorem free_buffer_repeat_is_safe {M : Type} (env : Collaborators M) (rt : Runtime)
    (contract_id : Option ContractIdentity) (function : String) (args : Bytes)
    (args_len : Nat) (id : ContractIdentity) (r : Reply) (p n : Nat)
    (later : List Request)
    (hr : r = call_contract env rt contract_id function args args_len ∨
          r = get_state env rt id)
    (hb : r.buffer = some (p, n)) :
    (free_buffer r.runtime p).2 = .ok ∧
    free_buffer (free_buffer r.runtime p).1 p =
      ((free_buffer r.runtime p).1, .DoubleRelease) ∧
    free_buffer (serveAll env (free_buffer r.runtime p).1 later) p =
      (serveAll env (free_buffer r.runtime p).1 later, .DoubleRelease) ∧
    (∀ rt' : Runtime, free_buffer rt' 0 = (rt', .ok)) := by
  have hreply : ∃ rt0 bs, r = Runtime.reply rt0 bs := by
    rcases hr with hr | hr
    · rcases call_contract_buffer env rt contract_id function args args_len with
        ⟨id', result, he⟩ | ⟨hnone, _, _⟩
      · exact ⟨_, result, hr.trans he⟩
      · rw [hr, hnone] at hb
        exact absurd hb (by simp)
    · rcases get_state_buffer env rt id with ⟨bs, he⟩ | ⟨hnone, _⟩
      · exact ⟨rt, bs, hr.trans he⟩
      · rw [hr, hnone] at hb
        exact absurd hb (by simp)
  obtain ⟨rt0, bs, rfl⟩ := hreply
  obtain ⟨hp, ho, hi⟩ := reply_buffer_owned rt0 bs p n hb
  have hfirst := free_owned _ p bs hp ho
  have h1 : lookup p (free_buffer (rt0.reply bs).runtime p).1.buffers = none := by
    rw [hfirst]
    exact lookup_erase_self p _
  have h2 : p ≤ (free_buffer (rt0.reply bs).runtime p).1.issued := by
    rw [hfirst]
    exact hi
  have hl := serveAll_keeps_released env later _ p h1 h2
  refine ⟨by rw [hfirst], free_released _ p hp h1 h2, free_released _ p hp hl.1 hl.2, ?_⟩
  intro rt'
  simp [free_buffer]

/-- C10 at the counter contract: the buffer returned by `get_state` (pointer 2,
two bytes) is released, then the contract is called, read and another buffer
released; releasing pointer 2 again is a `DoubleRelease` that changes nothing. -/
theorem free_buffer_repeat_is_safe_witness :
    (get_state counterEnv countedRuntime counterId).buffer = some (2, 2) ∧
    (free_buffer (get_state counterEnv countedRuntime counterId).runtime 2).2 = .ok ∧
    free_buffer (free_buffer (get_state counterEnv countedRuntime counterId).runtime 2).1 2 =
      ((free_buffer (get_state counterEnv countedRuntime counterId).runtime 2).1,
        .DoubleRelease) ∧
    free_buffer
        (serveAll counterEnv
          (free_buffer (get_state counterEnv countedRuntime counterId).runtime 2).1
          [.call (some counterId) "increment" [] 0, .getState counterId, .free 1]) 2 =
      (serveAll counterEnv
          (free_buffer (get_state counterEnv countedRuntime counterId).runtime 2).1
          [.call (some counterId) "increment" [] 0, .getState counterId, .free 1],
        .DoubleRelease) :=
  ⟨by decide,
   (free_buffer_repeat_is_safe counterEnv countedRuntime none "" [] 0 counterId
     (get_state counterEnv countedRuntime counterId) 2 2 [] (Or.inr rfl) (by decide)).1,
   (free_buffer_repeat_is_safe counterEnv countedRuntime none "" [] 0 counterId
     (get_state counterEnv countedRuntime counterId) 2 2 [] (Or.inr rfl) (by decide)).2.1,
   (free_buffer_repeat_is_safe counterEnv countedRuntime none "" [] 0 counterId
     (get_state counterEnv countedRuntime counterId) 2 2
     [.call (some counterId) "increment" [] 0, .getState counterId, .free 1]
     (Or.inr rfl) (by decide)).2.2.1⟩

end HyperSDK
